import Mathlib

/-!
# Verification of `Knowledge_Distillation.py`

A shallow embedding of the training script of the repository
`model-optimization-level3-cv-04`.  The script has two training paths
(`train` and `train_kd`), an entry point that rotates the output directory,
initialises experiment logging and dispatches on a `--distill_mode` flag,
and a teacher-checkpoint loading routine that normalises state-dict keys.

Pure helpers (`os.path.join`, `os.path.dirname`, `str.replace`,
`os.environ.get`, argparse's `type=bool`) are translated directly from
Python semantics; the entry point's sequence of side effects is modelled
as an event trace over an abstract file-system state.
-/

namespace KD

/-! ## Path helpers (os.path.join / os.path.dirname, as used at the call sites) -/

/-- `os.path.join a b` for a relative, slash-free-tail `b` as used in the
script (`os.path.join(log_dir, "best.pt")`, `os.path.join("exp", "latest")`). -/
def joinPath (a b : String) : String := a ++ "/" ++ b

/-- `os.path.dirname` for the plain relative paths the script builds:
everything before the last `/`, or `""` when there is no slash. -/
def dirname (p : String) : String :=
  let parts := p.splitOn "/"
  if parts.length ≤ 1 then "" else String.intercalate "/" parts.dropLast

/-! ## Environment-variable resolution (lines 251 and 254) -/

/-- `data_config["DATA_PATH"] = os.environ.get("SM_CHANNEL_TRAIN", data_config["DATA_PATH"])` -/
def resolveDataPath (env : String → Option String) (configured : String) : String :=
  (env "SM_CHANNEL_TRAIN").getD configured

/-- `log_dir = os.environ.get("SM_MODEL_DIR", os.path.join("exp", 'latest'))` -/
def resolveLogDir (env : String → Option String) : String :=
  (env "SM_MODEL_DIR").getD (joinPath "exp" "latest")

/-! ## argparse `type=bool` semantics for `--distill_mode` (lines 223-228) -/

/-- Python's `bool(s)` on a string: false exactly on the empty string. -/
def pyBoolOfString (s : String) : Bool := !s.isEmpty

/-- The parsed value of `--distill_mode`: the default `False` when the flag
is absent, otherwise `bool(<raw string>)` because the flag is declared with
`type=bool`. -/
def parseDistillMode : Option String → Bool
  | none => false
  | some s => pyBoolOfString s

/-- The dispatch test at line 271: `if args.distill_mode == True:`. -/
def selectsDistillation (raw : Option String) : Bool := parseDistillMode raw == true

/-! ## Teacher state-dict key normalisation (lines 139-142)

The loop builds `temp[n.replace("head.","")] = v` for every item of the raw
state dict.  Python's `str.replace` removes every non-overlapping occurrence
of the pattern, scanning left to right. -/

/-- The pattern `"head."` as a character list. -/
def headPat : List Char := ['h', 'e', 'a', 'd', '.']

/-- Fuel-driven core of `str.replace("head.", "")`: scan left to right,
removing each non-overlapping occurrence of `headPat`.  The fuel only has to
dominate the length of the list. -/
def stripHeadFuel : Nat → List Char → List Char
  | 0, l => l
  | _ + 1, [] => []
  | fuel + 1, c :: rest =>
    if (c :: rest).take 5 = headPat then stripHeadFuel fuel ((c :: rest).drop 5)
    else c :: stripHeadFuel fuel rest

/-- `n.replace("head.", "")` on a key given as a character list. -/
def stripHead (l : List Char) : List Char := stripHeadFuel l.length l

/-- Decide whether `headPat` occurs anywhere in the list. -/
def containsHead : List Char → Bool
  | [] => false
  | c :: rest => ((c :: rest).take 5 = headPat : Bool) || containsHead rest

/-- The reading the spec sentence suggests: strip `"head."` only when it is
the leading prefix of the key, and only that one occurrence. -/
def stripLeadingHead (l : List Char) : List Char :=
  if l.take 5 = headPat then l.drop 5 else l

/-- The whole key-normalisation loop (lines 139-142): every key of the raw
saved mapping is rewritten by `replace("head.","")`, values untouched,
order preserved (`temp` is an `OrderedDict`). -/
def normalize_state_dict (sd : List (List Char × Int)) : List (List Char × Int) :=
  sd.map fun kv => (stripHead kv.1, kv.2)

/-! ## Permissive state-dict loading (line 143, `strict=False`)

`load_state_dict` itself belongs to the external framework.
Modelled from the spec: "load into the teacher model permissively
(missing/unexpected keys tolerated)"; with `strict=True` a key mismatch is
an error, with `strict=False` matching keys are copied and mismatches are
silently ignored. -/
def load_state_dict (strict : Bool) (model sd : List (List Char × Int)) :
    Except String (List (List Char × Int)) :=
  let missing := model.any fun kv => (sd.lookup kv.1).isNone
  let unexpected := sd.any fun kv => (model.lookup kv.1).isNone
  if strict && (missing || unexpected) then
    Except.error "Error(s) in loading state_dict"
  else
    Except.ok (model.map fun kv => (kv.1, (sd.lookup kv.1).getD kv.2))

/-- The teacher-loading call of `train_kd` (lines 138-143): normalise the raw
keys, then load permissively (`strict=False`). -/
def teacherLoad (model rawSd : List (List Char × Int)) :
    Except String (List (List Char × Int)) :=
  load_state_dict false model (normalize_state_dict rawSd)

/-! ## Mixed-precision scaler construction (lines 69-71 and 168-170) -/

/-- A `torch.device` as far as the script distinguishes them. -/
inductive TorchDevice where
  | cpu : TorchDevice
  | cuda : Nat → TorchDevice
deriving DecidableEq, Repr

/-- An opaque-by-content stand-in for `torch.cuda.amp.GradScaler()`. -/
structure GradScaler where
deriving DecidableEq, Repr

/-- `scaler = torch.cuda.amp.GradScaler() if fp16 and device != torch.device("cpu") else None`,
the expression shared verbatim by `train` (line 70) and `train_kd` (line 169). -/
def mkGradScaler (fp16 : Bool) (device : TorchDevice) : Option GradScaler :=
  if fp16 && !(device == TorchDevice.cpu) then some {} else none

/-- The scaler built inside `train`. -/
def train_scaler (fp16 : Bool) (device : TorchDevice) : Option GradScaler :=
  mkGradScaler fp16 device

/-- The scaler built inside `train_kd`. -/
def train_kd_scaler (fp16 : Bool) (device : TorchDevice) : Option GradScaler :=
  mkGradScaler fp16 device

/-! ## The entry point (`__main__`, lines 244-292) as an event trace

The observable side effects of the entry point, in execution order:
rotate a pre-existing output directory (rename, after reading the mtime of
`best.pt` inside it — a fatal error when that file is absent), create the
output directory (`os.makedirs(log_dir, exist_ok=True)`), initialise the
experiment-logging session, then dispatch: in distillation mode assert
that the teacher checkpoint file exists and call `train_kd`, otherwise
call `train`. -/

/-- The file-system facts the entry point consults. -/
structure FS where
  dirExists : String → Bool
  fileExists : String → Bool
  mtime : String → Option Nat

/-- The command-line inputs the dispatch depends on.  `distill_mode_raw` is
the raw string given to `--distill_mode` (`none` when the flag is omitted). -/
structure Args where
  teacher_checkpoints : String
  distill_mode_raw : Option String

/-- One observable side effect of the entry point. -/
inductive Event where
  | renameDir : String → String → Event
  | makeDirs : String → Event
  | wandbInit : Event
  | assertFailed : String → Event
  | callTrainKD : Event
  | callTrain : Event
  | fatalError : String → Event
deriving DecidableEq, Repr

/-- Lines 256-259: when `log_dir` exists, read the mtime of
`log_dir + '/best.pt'` (`os.path.getmtime` raises when the file is absent)
and rename `log_dir` to `dirname(log_dir) + '/' + <formatted timestamp>`.
`fmt` abstracts `datetime.fromtimestamp(...).strftime("%Y-%m-%d_%H-%M-%S")`. -/
def rotateLogDir (fmt : Nat → String) (fs : FS) (log_dir : String) :
    Except String (List Event) :=
  if fs.dirExists log_dir then
    match fs.mtime (log_dir ++ "/best.pt") with
    | none => Except.error (log_dir ++ "/best.pt")
    | some t => Except.ok [Event.renameDir log_dir (dirname log_dir ++ "/" ++ fmt t)]
  else Except.ok []

/-- The event trace of one invocation of the entry point (lines 254-292).
`resolveLogDir env` is the `log_dir` of line 254. -/
def mainRun (fmt : Nat → String) (env : String → Option String) (args : Args)
    (fs : FS) : List Event :=
  match rotateLogDir fmt fs (resolveLogDir env) with
  | Except.error p => [Event.fatalError p]
  | Except.ok evs =>
    evs ++ [Event.makeDirs (resolveLogDir env), Event.wandbInit] ++
      (if selectsDistillation args.distill_mode_raw then
        (if fs.fileExists args.teacher_checkpoints then [Event.callTrainKD]
         else [Event.assertFailed args.teacher_checkpoints])
      else [Event.callTrain])

/-! ## The distillation loop's parameter frame (lines 151-153, 173-189)

`TorchTrainer` lives outside the script.  The optimizer construction is in
the script: `torch.optim.SGD(student_model.parameters(), ...)` (lines
151-153), i.e. the optimizer owns exactly the student's parameter group. -/

/-- The two parameter groups alive in distillation mode. -/
structure Params where
  student : List Int
  teacher : List Int
deriving DecidableEq, Repr

/-- Which parameter group an optimizer was built over. -/
inductive ParamRef where
  | student : ParamRef
  | teacher : ParamRef
deriving DecidableEq, Repr

/-- An optimizer: a handle on one parameter group; `step` applies a gradient
update to that group only. -/
structure Optimizer where
  group : ParamRef
deriving DecidableEq, Repr

/-- `optimizer.step()`: updates exactly the parameters the optimizer was
constructed over. -/
def Optimizer.step (o : Optimizer) (update : List Int → List Int) (p : Params) : Params :=
  match o.group with
  | ParamRef.student => { p with student := update p.student }
  | ParamRef.teacher => { p with teacher := update p.teacher }

/-- Lines 151-153: `optimizer = torch.optim.SGD(student_model.parameters(), ...)`. -/
def kd_optimizer : Optimizer := { group := ParamRef.student }

/-- Modelled from the spec: `TorchTrainer.train_kd` (imported from
`src.trainer`, not under `src/` here).  Per spec §4.2 the loop has the same
epoch/batch structure as plain training and "only the student's parameters
receive gradient updates": each step backpropagates the composite loss and
steps the optimizer of lines 151-153.  `nSteps` counts optimizer steps over
the whole run; `update` abstracts one gradient update. -/
def trainKDRun (update : List Int → List Int) (nSteps : Nat) (p : Params) : Params :=
  (kd_optimizer.step update)^[nSteps] p

/-! ## The common tail of `train` and `train_kd` (lines 90-95 and 191-195)

After the training loop, both functions reload the model from
`os.path.join(log_dir, "best.pt")`, run `trainer.test` once and return its
triple unchanged.  The checkpoint store and `trainer.test` are external
collaborators, abstracted as functions. -/

/-- What the final-evaluation tail of `train`/`train_kd` consumes: the
checkpoint store left behind by the training loop, and `trainer.test`. -/
structure TrainEnv where
  ckpt : String → Option (List Int)
  test : List Int → Option (Int × Int × Int)

/-- Lines 90-95 of `train`: `torch.load(model_path)` with
`model_path = os.path.join(log_dir, "best.pt")` (line 43), then
`trainer.test`, returning `(test_loss, test_f1, test_acc)`. -/
def train_final (log_dir : String) (env : TrainEnv) : Option (Int × Int × Int) :=
  match env.ckpt (joinPath log_dir "best.pt") with
  | none => none
  | some m => env.test m

/-- Lines 191-195 of `train_kd`: identical tail, with the student model and
`model_path = os.path.join(log_dir, "best.pt")` (line 124). -/
def train_kd_final (log_dir : String) (env : TrainEnv) : Option (Int × Int × Int) :=
  match env.ckpt (joinPath log_dir "best.pt") with
  | none => none
  | some m => env.test m

/-! ## Helper lemmas -/

/-- On a list with no occurrence of `"head."`, the replacement scan is the
identity (given enough fuel). -/
lemma stripHeadFuel_of_not_contains :
    ∀ (fuel : Nat) (l : List Char), l.length ≤ fuel → containsHead l = false →
      stripHeadFuel fuel l = l := by
  intro fuel
  induction fuel with
  | zero => intro l _ _; rfl
  | succ f ih =>
    intro l hlen hc
    cases l with
    | nil => rfl
    | cons c rest =>
      simp only [containsHead, Bool.or_eq_false_iff, decide_eq_false_iff_not] at hc
      simp only [stripHeadFuel, if_neg hc.1]
      have : rest.length ≤ f := by
        simpa [Nat.succ_le_succ_iff] using hlen
      rw [ih rest this hc.2]

/-- `stripHead` is the identity on keys with no occurrence of `"head."`. -/
lemma stripHead_of_not_contains (l : List Char) (h : containsHead l = false) :
    stripHead l = l :=
  stripHeadFuel_of_not_contains l.length l le_rfl h

/-- Stripping a key that is `"head."` followed by a remainder with no further
occurrence yields exactly the remainder. -/
lemma stripHead_headPat_append (rest : List Char) (h : containsHead rest = false) :
    stripHead (headPat ++ rest) = rest := by
  have hlen : (headPat ++ rest).length = rest.length + 5 := by
    simp [headPat]
  rw [stripHead, hlen]
  show stripHeadFuel (rest.length + 4 + 1)
    ('h' :: 'e' :: 'a' :: 'd' :: '.' :: rest) = rest
  rw [stripHeadFuel]
  simp only [List.take_succ_cons, List.take_zero, List.drop_succ_cons,
    List.drop_zero, headPat, if_pos rfl]
  exact stripHeadFuel_of_not_contains _ rest (by omega) h

/-- A successful directory rotation emits only `renameDir` events. -/
lemma rotateLogDir_ok_renames (fmt : Nat → String) (fs : FS) (d : String)
    (evs : List Event) (h : rotateLogDir fmt fs d = Except.ok evs) :
    ∀ e ∈ evs, ∃ o n, e = Event.renameDir o n := by
  unfold rotateLogDir at h
  by_cases hd : fs.dirExists d = true
  · rw [if_pos hd] at h
    cases hm : fs.mtime (d ++ "/best.pt") with
    | none => rw [hm] at h; exact absurd h (by simp)
    | some t =>
      rw [hm] at h
      have : evs = [Event.renameDir d (dirname d ++ "/" ++ fmt t)] := by
        simpa using h.symm
      subst this
      intro e he
      simp only [List.mem_singleton] at he
      exact ⟨_, _, he⟩
  · rw [if_neg hd] at h
    have : evs = ([] : List Event) := by simpa using h.symm
    subst this
    intro e he
    exact absurd he (List.not_mem_nil e)

/-- A successful directory rotation emits no training-path events. -/
lemma rotateLogDir_ok_no_train (fmt : Nat → String) (fs : FS) (d : String)
    (evs : List Event) (h : rotateLogDir fmt fs d = Except.ok evs) :
    Event.callTrain ∉ evs ∧ Event.callTrainKD ∉ evs := by
  constructor <;> intro hmem <;>
    rcases rotateLogDir_ok_renames fmt fs d evs h _ hmem with ⟨o, n, hn⟩ <;>
    cases hn

/-! ## Concrete fixtures used by counterexamples and witnesses -/

/-- A stand-in for the timestamp formatter `strftime("%Y-%m-%d_%H-%M-%S")`. -/
def fmt0 : Nat → String := fun t => toString t

/-- A file system with no directories and no files. -/
def fsEmpty : FS :=
  { dirExists := fun _ => false, fileExists := fun _ => false, mtime := fun _ => none }

/-- A file system where the default output directory `exp/latest` exists but
holds no `best.pt`. -/
def fsStale : FS :=
  { dirExists := fun d => d == "exp/latest", fileExists := fun _ => false,
    mtime := fun _ => none }

/-- Arguments selecting distillation mode with the default checkpoint path. -/
def argsDistill : Args :=
  { teacher_checkpoints := "exp/swin_teacher/best.pt", distill_mode_raw := some "True" }

/-- Arguments with `--distill_mode` omitted (plain training). -/
def argsPlain : Args :=
  { teacher_checkpoints := "exp/swin_teacher/best.pt", distill_mode_raw := none }

/-- An environment setting only `SM_MODEL_DIR`. -/
def envModelDir : String → Option String :=
  fun k => if k = "SM_MODEL_DIR" then some "out/run" else none

/-- An environment setting only `SM_CHANNEL_TRAIN`. -/
def envChannelTrain : String → Option String :=
  fun k => if k = "SM_CHANNEL_TRAIN" then some "/opt/ml/input" else none

/-- A file system where `out/run` exists but holds no `best.pt`. -/
def fsOutStale : FS :=
  { dirExists := fun d => d == "out/run", fileExists := fun _ => false,
    mtime := fun _ => none }

/-- A file system where `out/run` exists and its `best.pt` has mtime 7. -/
def fsOutFresh : FS :=
  { dirExists := fun d => d == "out/run", fileExists := fun _ => false,
    mtime := fun p => if p == "out/run/best.pt" then some 7 else none }

/-! ## Claim C2 -/

/-- Claim C2 as stated is false: `n.replace("head.","")` removes every
occurrence of `"head."`, not only a leading prefix.  On the key `"a.head.b"`
the code produces `"a.b"`, while the claim (strip only a leading prefix)
leaves the key unchanged. -/
theorem C2_counterexample :
    stripHead ("a.head.b".toList) ≠ stripLeadingHead ("a.head.b".toList) ∧
    stripLeadingHead ("a.head.b".toList) = "a.head.b".toList ∧
    normalize_state_dict [("a.head.b".toList, 0)] = [("a.b".toList, 0)] := by
  decide

/-- Claim C2 (amended): the key normalisation removes every left-to-right,
non-overlapping occurrence of the substring `"head."` from each key, not
only a leading prefix.  In particular, a key consisting of `"head."`
followed by a remainder with no further occurrence maps to exactly that
remainder, and a key with no occurrence at all is unchanged. -/
theorem C2_replace_all_occurrences (rest : List Char) (v : Int)
    (h : containsHead rest = false) :
    stripHead (headPat ++ rest) = rest ∧
    stripHead rest = rest ∧
    normalize_state_dict [(headPat ++ rest, v), (rest, v)] = [(rest, v), (rest, v)] := by
  refine ⟨stripHead_headPat_append rest h, stripHead_of_not_contains rest h, ?_⟩
  simp [normalize_state_dict, stripHead_headPat_append rest h,
    stripHead_of_not_contains rest h]

/-- Witness for C2 at the concrete key `"head.fc.weight"`. -/
theorem C2_replace_all_occurrences_witness :
    stripHead (headPat ++ "fc.weight".toList) = "fc.weight".toList ∧
    stripHead ("fc.weight".toList) = "fc.weight".toList ∧
    normalize_state_dict [(headPat ++ "fc.weight".toList, 3), ("fc.weight".toList, 3)] =
      [("fc.weight".toList, 3), ("fc.weight".toList, 3)] :=
  C2_replace_all_occurrences ("fc.weight".toList) 3 (by decide)

/-! ## Claim C5 -/

/-- Claim C5: in both training paths the mixed-precision scaler is created
iff the `fp16` flag is set and the device is not the CPU; on the CPU no
scaler is created (`None`). -/
theorem C5_scaler_iff (fp16 : Bool) (device : TorchDevice) :
    ((train_scaler fp16 device).isSome ↔ (fp16 = true ∧ device ≠ TorchDevice.cpu)) ∧
    ((train_kd_scaler fp16 device).isSome ↔ (fp16 = true ∧ device ≠ TorchDevice.cpu)) ∧
    train_scaler fp16 TorchDevice.cpu = none ∧
    train_kd_scaler fp16 TorchDevice.cpu = none := by
  refine ⟨?_, ?_, ?_, ?_⟩ <;>
    cases fp16 <;> cases device <;>
      simp [train_scaler, train_kd_scaler, mkGradScaler]

/-! ## Claim C8 -/

/-- Claim C8: loading the prefix-stripped teacher state dict uses
`strict=False`, so it never raises — for every model and every raw state
dict the load succeeds, and the model's parameter keys are unchanged
(unexpected keys are dropped, missing keys keep their old entries). -/
theorem C8_permissive_load (model rawSd : List (List Char × Int)) :
    ∃ m, teacherLoad model rawSd = Except.ok m ∧
      m.map Prod.fst = model.map Prod.fst := by
  refine ⟨model.map fun kv =>
    (kv.1, (((normalize_state_dict rawSd).lookup kv.1).getD kv.2)), ?_, ?_⟩
  · simp [teacherLoad, load_state_dict]
  · induction model with
    | nil => rfl
    | cons kv tl ih => simp [ih]

/-! ## Claim C9 -/

/-- Claim C9: `SM_CHANNEL_TRAIN`, when set, replaces the dataset path of the
data config (otherwise the configured value is kept), and `SM_MODEL_DIR`,
when set, is the output directory (otherwise `exp/latest`). -/
theorem C9_env_overrides (env : String → Option String) (configured v w : String) :
    (env "SM_CHANNEL_TRAIN" = some v → resolveDataPath env configured = v) ∧
    (env "SM_CHANNEL_TRAIN" = none → resolveDataPath env configured = configured) ∧
    (env "SM_MODEL_DIR" = some w → resolveLogDir env = w) ∧
    (env "SM_MODEL_DIR" = none → resolveLogDir env = "exp/latest") := by
  refine ⟨?_, ?_, ?_, ?_⟩ <;> intro h <;>
    simp [resolveDataPath, resolveLogDir, joinPath, h]

/-- Witness for C9: a set `SM_CHANNEL_TRAIN` overrides the dataset path, and
an absent `SM_MODEL_DIR` leaves the output directory at `exp/latest`. -/
theorem C9_env_overrides_witness :
    resolveDataPath envChannelTrain "data/taco" = "/opt/ml/input" ∧
    resolveLogDir envChannelTrain = "exp/latest" :=
  ⟨(C9_env_overrides envChannelTrain "data/taco" "/opt/ml/input" "w").1 rfl,
   (C9_env_overrides envChannelTrain "data/taco" "/opt/ml/input" "w").2.2.2 rfl⟩

/-! ## Claim C10 -/

/-- Claim C10: because `--distill_mode` is declared with `type=bool`, any
non-empty string value (including the literal `"False"`) selects
distillation mode; plain training runs only when the flag is omitted or
given the empty string. -/
theorem C10_distill_flag_semantics (raw : Option String) :
    (selectsDistillation raw = true ↔ ∃ s, raw = some s ∧ s ≠ "") ∧
    selectsDistillation (some "False") = true ∧
    selectsDistillation none = false ∧
    selectsDistillation (some "") = false := by
  refine ⟨?_, by decide, by decide, by decide⟩
  cases raw with
  | none => simp [selectsDistillation, parseDistillMode]
  | some s =>
    simp only [selectsDistillation, parseDistillMode, pyBoolOfString, beq_iff_eq,
      Bool.not_eq_true', Option.some.injEq]
    constructor
    · intro h
      refine ⟨s, rfl, ?_⟩
      intro he
      rw [he] at h
      exact absurd h (by decide)
    · rintro ⟨s', hs, hne⟩
      cases hs
      cases hempty : s.isEmpty
      · rfl
      · exact absurd ((String.isEmpty_iff s).mp hempty) hne

/-! ## Claim C3 -/

/-- Claim C3: the optimizer of `train_kd` is constructed over the student's
parameter group exclusively (lines 151-153), and therefore the teacher's
parameters are identical before and after the whole distillation run, for
every gradient update and every number of optimizer steps. -/
theorem C3_teacher_frozen (update : List Int → List Int) (nSteps : Nat) (p : Params) :
    (trainKDRun update nSteps p).teacher = p.teacher ∧
    kd_optimizer.group = ParamRef.student := by
  refine ⟨?_, rfl⟩
  induction nSteps with
  | zero => rfl
  | succ n ih =>
    rw [trainKDRun, Function.iterate_succ_apply']
    show (kd_optimizer.step update (trainKDRun update n p)).teacher = p.teacher
    rw [← ih]
    rfl

/-! ## Claim C6 -/

/-- Claim C6: after the training loop, both `train` and `train_kd` reload
the model from the checkpoint at `<log_dir>/best.pt`, run one final
evaluation, and return the resulting `(loss, F1, accuracy)` triple
unchanged and in that order. -/
theorem C6_final_eval (log_dir : String) (env : TrainEnv) (m : List Int)
    (r : Int × Int × Int)
    (hc : env.ckpt (joinPath log_dir "best.pt") = some m)
    (ht : env.test m = some r) :
    train_final log_dir env = some r ∧ train_kd_final log_dir env = some r := by
  constructor <;> simp [train_final, train_kd_final, hc, ht]

/-- A concrete environment for the C6 witness: the checkpoint store holds a
model at `exp/latest/best.pt` and the test pass yields `(5, 90, 80)`. -/
def envFinal : TrainEnv :=
  { ckpt := fun p => if p == "exp/latest/best.pt" then some [1, 2] else none,
    test := fun m => if m == [1, 2] then some (5, 90, 80) else none }

/-- Witness for C6 at a concrete log dir and trainer environment. -/
theorem C6_final_eval_witness :
    train_final "exp/latest" envFinal = some (5, 90, 80) ∧
    train_kd_final "exp/latest" envFinal = some (5, 90, 80) :=
  C6_final_eval "exp/latest" envFinal [1, 2] (5, 90, 80) (by decide) (by decide)

/-! ## Claim C1 -/

/-- Claim C1 as stated is false: with distillation mode selected and the
teacher checkpoint absent, the run does terminate at the assertion, but
only after `os.makedirs(log_dir, exist_ok=True)` (line 261) has already
created the output directory (which did not exist beforehand), and after
the logging session was initialised. -/
theorem C1_counterexample :
    fsEmpty.dirExists "exp/latest" = false ∧
    fsEmpty.fileExists "exp/swin_teacher/best.pt" = false ∧
    selectsDistillation argsDistill.distill_mode_raw = true ∧
    mainRun fmt0 (fun _ => none) argsDistill fsEmpty =
      [Event.makeDirs "exp/latest", Event.wandbInit,
       Event.assertFailed "exp/swin_teacher/best.pt"] := by
  decide

/-- Claim C1 (amended): if distillation mode is selected and the teacher
checkpoint file is absent, then — provided the startup directory rotation
succeeds — the run ends with the assertion failure and neither training
path is ever invoked; however, the output directory has already been
created (and the logging session initialised) before the assertion fires. -/
theorem C1_assert_after_makedirs (fmt : Nat → String) (env : String → Option String)
    (args : Args) (fs : FS) (evs : List Event)
    (hrot : rotateLogDir fmt fs (resolveLogDir env) = Except.ok evs)
    (hd : selectsDistillation args.distill_mode_raw = true)
    (hc : fs.fileExists args.teacher_checkpoints = false) :
    mainRun fmt env args fs =
      evs ++ [Event.makeDirs (resolveLogDir env), Event.wandbInit,
        Event.assertFailed args.teacher_checkpoints] ∧
    Event.callTrainKD ∉ mainRun fmt env args fs ∧
    Event.callTrain ∉ mainRun fmt env args fs := by
  have hmain : mainRun fmt env args fs =
      evs ++ [Event.makeDirs (resolveLogDir env), Event.wandbInit,
        Event.assertFailed args.teacher_checkpoints] := by
    unfold mainRun
    rw [hrot, hd, hc]
    simp
  have hno := rotateLogDir_ok_no_train fmt fs (resolveLogDir env) evs hrot
  refine ⟨hmain, ?_, ?_⟩ <;> rw [hmain] <;> intro hmem <;>
    simp only [List.mem_append, List.mem_cons, List.not_mem_nil] at hmem <;>
    rcases hmem with h | h
  · exact hno.2 h
  · rcases h with h | h | h | h <;> cases h
  · exact hno.1 h
  · rcases h with h | h | h | h <;> cases h

/-- Witness for C1 on an empty file system with the default paths. -/
theorem C1_assert_after_makedirs_witness :
    mainRun fmt0 (fun _ => none) argsDistill fsEmpty =
      [] ++ [Event.makeDirs (resolveLogDir (fun _ => none)), Event.wandbInit,
        Event.assertFailed argsDistill.teacher_checkpoints] ∧
    Event.callTrainKD ∉ mainRun fmt0 (fun _ => none) argsDistill fsEmpty ∧
    Event.callTrain ∉ mainRun fmt0 (fun _ => none) argsDistill fsEmpty :=
  C1_assert_after_makedirs fmt0 (fun _ => none) argsDistill fsEmpty []
    rfl (by decide) (by decide)

/-! ## Claim C4 -/

/-- Claim C4 as stated is false: on an invocation where the output directory
exists but holds no `best.pt`, `os.path.getmtime` raises before the
dispatch, so neither training path executes — not exactly one. -/
theorem C4_counterexample :
    (mainRun fmt0 (fun _ => none) argsPlain fsStale).count Event.callTrain +
      (mainRun fmt0 (fun _ => none) argsPlain fsStale).count Event.callTrainKD = 0 := by
  decide

/-- Claim C4 (amended): per invocation at most one of the two training paths
executes and never both; whenever startup succeeds (the directory rotation
does not fail and, in distillation mode, the teacher checkpoint exists),
exactly one executes, selected by the distillation-mode flag. -/
theorem C4_one_path (fmt : Nat → String) (env : String → Option String)
    (args : Args) (fs : FS) :
    ((mainRun fmt env args fs).count Event.callTrain +
      (mainRun fmt env args fs).count Event.callTrainKD ≤ 1) ∧
    (∀ evs, rotateLogDir fmt fs (resolveLogDir env) = Except.ok evs →
      ((selectsDistillation args.distill_mode_raw = true →
          fs.fileExists args.teacher_checkpoints = true →
          (mainRun fmt env args fs).count Event.callTrainKD = 1 ∧
          (mainRun fmt env args fs).count Event.callTrain = 0) ∧
        (selectsDistillation args.distill_mode_raw = false →
          (mainRun fmt env args fs).count Event.callTrain = 1 ∧
          (mainRun fmt env args fs).count Event.callTrainKD = 0))) := by
  cases hrot : rotateLogDir fmt fs (resolveLogDir env) with
  | error p =>
    constructor
    · unfold mainRun
      rw [hrot]
      simp [List.count_cons]
    · intro evs h
      exact absurd h (by simp)
  | ok evs =>
    have hno := rotateLogDir_ok_no_train fmt fs (resolveLogDir env) evs hrot
    have hcT : evs.count Event.callTrain = 0 := List.count_eq_zero.mpr hno.1
    have hcK : evs.count Event.callTrainKD = 0 := List.count_eq_zero.mpr hno.2
    have hmain : mainRun fmt env args fs =
        evs ++ [Event.makeDirs (resolveLogDir env), Event.wandbInit] ++
          (if selectsDistillation args.distill_mode_raw then
            (if fs.fileExists args.teacher_checkpoints then [Event.callTrainKD]
             else [Event.assertFailed args.teacher_checkpoints])
          else [Event.callTrain]) := by
      unfold mainRun
      rw [hrot]
    constructor
    · rw [hmain]
      cases hsel : selectsDistillation args.distill_mode_raw <;>
        cases hex : fs.fileExists args.teacher_checkpoints <;>
          simp [List.count_append, hcT, hcK, List.count_cons]
    · intro evs' h
      cases h
      constructor
      · intro hsel hex
        rw [hmain, hsel, hex]
        simp [List.count_append, hcT, hcK, List.count_cons]
      · intro hsel
        rw [hmain, hsel]
        simp [List.count_append, hcT, hcK, List.count_cons]

/-- Witness for C4: a plain-mode invocation on an empty file system executes
the plain path exactly once and the distillation path never. -/
theorem C4_one_path_witness :
    (mainRun fmt0 (fun _ => none) argsPlain fsEmpty).count Event.callTrain = 1 ∧
    (mainRun fmt0 (fun _ => none) argsPlain fsEmpty).count Event.callTrainKD = 0 :=
  ((C4_one_path fmt0 (fun _ => none) argsPlain fsEmpty).2 [] rfl).2 (by decide)

/-! ## Claim C7 -/

/-- Claim C7 as stated is false: when the output directory exists but holds
no `best.pt`, `os.path.getmtime(log_dir + '/best.pt')` (line 257) raises,
so the pre-existing directory is not renamed at all — the run dies first. -/
theorem C7_counterexample :
    fsOutStale.dirExists (resolveLogDir envModelDir) = true ∧
    fsOutStale.mtime (resolveLogDir envModelDir ++ "/best.pt") = none ∧
    mainRun fmt0 envModelDir argsPlain fsOutStale =
      [Event.fatalError "out/run/best.pt"] := by
  decide

/-- Claim C7 (amended): if the output directory exists and `best.pt` inside
it has a modification time, the run first renames the directory to the
sibling `dirname(log_dir)/<timestamp of that mtime>`; if the directory
exists without `best.pt`, the run fails before renaming anything. -/
theorem C7_rotation (fmt : Nat → String) (env : String → Option String)
    (args : Args) (fs : FS) (t : Nat) :
    (fs.dirExists (resolveLogDir env) = true →
      fs.mtime (resolveLogDir env ++ "/best.pt") = some t →
      ∃ rest, mainRun fmt env args fs =
        Event.renameDir (resolveLogDir env)
          (dirname (resolveLogDir env) ++ "/" ++ fmt t) :: rest) ∧
    (fs.dirExists (resolveLogDir env) = true →
      fs.mtime (resolveLogDir env ++ "/best.pt") = none →
      mainRun fmt env args fs =
        [Event.fatalError (resolveLogDir env ++ "/best.pt")]) := by
  constructor
  · intro hd hm
    unfold mainRun rotateLogDir
    rw [if_pos hd, hm]
    exact ⟨_, rfl⟩
  · intro hd hm
    unfold mainRun rotateLogDir
    rw [if_pos hd, hm]

/-- Witness for C7: with `SM_MODEL_DIR=out/run`, an existing `out/run`
whose `best.pt` has mtime 7 is renamed to `out/<fmt 7>` first. -/
theorem C7_rotation_witness :
    ∃ rest, mainRun fmt0 envModelDir argsPlain fsOutFresh =
      Event.renameDir (resolveLogDir envModelDir)
        (dirname (resolveLogDir envModelDir) ++ "/" ++ fmt0 7) :: rest :=
  (C7_rotation fmt0 envModelDir argsPlain fsOutFresh 7).1 (by decide) (by decide)

end KD
